import Mathlib

/-!
Verification of the capability registration core of the botan plugin
(src/libstrongswan/plugins/botan/botan_plugin.c).

The preprocessor capability flags of the backend build are modelled as a
`Config` of booleans; each static feature group array becomes a function from
`Config` to a list of feature entries, mirroring the nesting of the
conditional-compilation blocks in the source.  The `get_features` entry point
is modelled as a state transformer over the static cache (array + count).
-/

set_option maxRecDepth 20000
set_option maxHeartbeats 2000000

namespace BotanPlugin

/-- The backend build-time capability flags (`BOTAN_HAS_*`) consulted by
botan_plugin.c, one boolean per preprocessor symbol. -/
structure Config where
  diffie_hellman : Bool
  ecdh : Bool
  x25519 : Bool
  aes : Bool
  mode_cbc : Bool
  aead_gcm : Bool
  aead_ccm : Bool
  aead_chacha20_poly1305 : Bool
  md5 : Bool
  sha1 : Bool
  sha2_32 : Bool
  sha2_64 : Bool
  sha3 : Bool
  hmac : Bool
  rsa : Bool
  ecdsa : Bool
  ed25519 : Bool
  emsa_pkcs1 : Bool
  emsa_pssr : Bool
  eme_oaep : Bool
  emsa_raw : Bool
  emsa1 : Bool
  system_rng : Bool
  hmac_drbg : Bool
deriving DecidableEq

/-- Capability categories (plugin feature types) used in botan_plugin.c. -/
inductive FeatureType where
  | RNG | HASHER | CRYPTER | AEAD | DH | PRF | SIGNER
  | PUBKEY | PRIVKEY | PRIVKEY_GEN | PRIVKEY_SIGN | PUBKEY_VERIFY
  | PRIVKEY_DECRYPT | PUBKEY_ENCRYPT
deriving DecidableEq

/-- Algorithm identifiers appearing in the PLUGIN_PROVIDE entries. -/
inductive Alg where
  | MODP_3072_BIT | MODP_4096_BIT | MODP_6144_BIT | MODP_8192_BIT
  | MODP_2048_BIT | MODP_2048_224 | MODP_2048_256 | MODP_1536_BIT
  | MODP_1024_BIT | MODP_1024_160 | MODP_768_BIT | MODP_CUSTOM
  | ECP_256_BIT | ECP_384_BIT | ECP_521_BIT
  | ECP_256_BP | ECP_384_BP | ECP_512_BP
  | CURVE_25519
  | ENCR_AES_CBC
  | ENCR_AES_GCM_ICV16 | ENCR_AES_GCM_ICV12 | ENCR_AES_GCM_ICV8
  | ENCR_AES_CCM_ICV16 | ENCR_AES_CCM_ICV12 | ENCR_AES_CCM_ICV8
  | ENCR_CHACHA20_POLY1305
  | HASH_MD5 | HASH_SHA1 | HASH_SHA224 | HASH_SHA256
  | HASH_SHA384 | HASH_SHA512
  | HASH_SHA3_224 | HASH_SHA3_256 | HASH_SHA3_384 | HASH_SHA3_512
  | HASH_IDENTITY
  | PRF_HMAC_SHA1 | PRF_HMAC_SHA2_256 | PRF_HMAC_SHA2_384 | PRF_HMAC_SHA2_512
  | AUTH_HMAC_SHA1_96 | AUTH_HMAC_SHA1_128 | AUTH_HMAC_SHA1_160
  | AUTH_HMAC_SHA2_256_128 | AUTH_HMAC_SHA2_256_256
  | AUTH_HMAC_SHA2_384_192 | AUTH_HMAC_SHA2_384_384
  | AUTH_HMAC_SHA2_512_256 | AUTH_HMAC_SHA2_512_512
  | KEY_ANY | KEY_RSA | KEY_ECDSA | KEY_ED25519
  | SIGN_RSA_EMSA_PKCS1_NULL | SIGN_RSA_EMSA_PKCS1_SHA1
  | SIGN_RSA_EMSA_PKCS1_SHA2_224 | SIGN_RSA_EMSA_PKCS1_SHA2_256
  | SIGN_RSA_EMSA_PKCS1_SHA2_384 | SIGN_RSA_EMSA_PKCS1_SHA2_512
  | SIGN_RSA_EMSA_PKCS1_SHA3_224 | SIGN_RSA_EMSA_PKCS1_SHA3_256
  | SIGN_RSA_EMSA_PKCS1_SHA3_384 | SIGN_RSA_EMSA_PKCS1_SHA3_512
  | SIGN_RSA_EMSA_PSS
  | ENCRYPT_RSA_PKCS1
  | ENCRYPT_RSA_OAEP_SHA224 | ENCRYPT_RSA_OAEP_SHA256
  | ENCRYPT_RSA_OAEP_SHA384 | ENCRYPT_RSA_OAEP_SHA512
  | SIGN_ECDSA_WITH_NULL
  | SIGN_ECDSA_WITH_SHA1_DER | SIGN_ECDSA_WITH_SHA256_DER
  | SIGN_ECDSA_256
  | SIGN_ECDSA_WITH_SHA384_DER | SIGN_ECDSA_WITH_SHA512_DER
  | SIGN_ECDSA_384 | SIGN_ECDSA_521
  | SIGN_ED25519
  | RNG_WEAK | RNG_STRONG | RNG_TRUE
deriving DecidableEq

/-- Constructor references registered by the plugin (opaque factory
functions of external collaborators; identity only). -/
inductive Ctor where
  | botan_diffie_hellman_create
  | botan_ec_diffie_hellman_create
  | botan_x25519_create
  | botan_crypter_create
  | botan_aead_create
  | botan_hasher_create
  | botan_hmac_prf_create
  | botan_hmac_signer_create
  | botan_public_key_load
  | botan_private_key_load
  | botan_rsa_public_key_load
  | botan_rsa_private_key_load
  | botan_rsa_private_key_gen
  | botan_ec_private_key_load
  | botan_ec_private_key_gen
  | botan_ed_public_key_load
  | botan_ed_private_key_load
  | botan_ed_private_key_gen
  | botan_rng_create
  | return_null
deriving DecidableEq

/-- Modelled from the spec: a Feature Entry is either a Registration
(category, constructor reference, optional build flag) or a Provision
(category, algorithm, optional key size); the PLUGIN_REGISTER and
PLUGIN_PROVIDE macros come from the plugin framework, which is not under
src/. -/
inductive PluginFeature where
  | register (t : FeatureType) (f : Ctor) (bld : Option Bool)
  | provide (t : FeatureType) (alg : Alg) (size : Option Nat)
deriving DecidableEq

/-- The capability category of a feature entry. -/
def PluginFeature.ftype : PluginFeature → FeatureType
  | .register t _ _ => t
  | .provide t _ _ => t

open FeatureType Alg Ctor PluginFeature

/-- f_dh: MODP DH groups, gated by BOTAN_HAS_DIFFIE_HELLMAN. -/
def f_dh (c : Config) : List PluginFeature :=
  if c.diffie_hellman then
    [register DH botan_diffie_hellman_create none,
     provide DH MODP_3072_BIT none,
     provide DH MODP_4096_BIT none,
     provide DH MODP_6144_BIT none,
     provide DH MODP_8192_BIT none,
     provide DH MODP_2048_BIT none,
     provide DH MODP_2048_224 none,
     provide DH MODP_2048_256 none,
     provide DH MODP_1536_BIT none,
     provide DH MODP_1024_BIT none,
     provide DH MODP_1024_160 none,
     provide DH MODP_768_BIT none,
     provide DH MODP_CUSTOM none]
  else []

/-- f_ecdh: EC DH groups (BOTAN_HAS_ECDH) and X25519 (BOTAN_HAS_X25519). -/
def f_ecdh (c : Config) : List PluginFeature :=
  (if c.ecdh then
    [register DH botan_ec_diffie_hellman_create none,
     provide DH ECP_256_BIT none,
     provide DH ECP_384_BIT none,
     provide DH ECP_521_BIT none,
     provide DH ECP_256_BP none,
     provide DH ECP_384_BP none,
     provide DH ECP_512_BP none]
  else []) ++
  (if c.x25519 then
    [register DH botan_x25519_create none,
     provide DH CURVE_25519 none]
  else [])

/-- f_crypt: CBC crypters and AEAD, with the nested conditional blocks of
the source. -/
def f_crypt (c : Config) : List PluginFeature :=
  (if c.aes && c.mode_cbc then
    register CRYPTER botan_crypter_create none ::
    (if c.aes then
      (if c.mode_cbc then
        [provide CRYPTER ENCR_AES_CBC (some 16),
         provide CRYPTER ENCR_AES_CBC (some 24),
         provide CRYPTER ENCR_AES_CBC (some 32)]
      else [])
    else [])
  else []) ++
  (if (c.aes && (c.aead_gcm || c.aead_ccm)) || c.aead_chacha20_poly1305 then
    register AEAD botan_aead_create none ::
    ((if c.aes then
       (if c.aead_gcm then
         [provide AEAD ENCR_AES_GCM_ICV16 (some 16),
          provide AEAD ENCR_AES_GCM_ICV16 (some 24),
          provide AEAD ENCR_AES_GCM_ICV16 (some 32),
          provide AEAD ENCR_AES_GCM_ICV12 (some 16),
          provide AEAD ENCR_AES_GCM_ICV12 (some 24),
          provide AEAD ENCR_AES_GCM_ICV12 (some 32),
          provide AEAD ENCR_AES_GCM_ICV8 (some 16),
          provide AEAD ENCR_AES_GCM_ICV8 (some 24),
          provide AEAD ENCR_AES_GCM_ICV8 (some 32)]
       else []) ++
       (if c.aead_ccm then
         [provide AEAD ENCR_AES_CCM_ICV16 (some 16),
          provide AEAD ENCR_AES_CCM_ICV16 (some 24),
          provide AEAD ENCR_AES_CCM_ICV16 (some 32),
          provide AEAD ENCR_AES_CCM_ICV12 (some 16),
          provide AEAD ENCR_AES_CCM_ICV12 (some 24),
          provide AEAD ENCR_AES_CCM_ICV12 (some 32),
          provide AEAD ENCR_AES_CCM_ICV8 (some 16),
          provide AEAD ENCR_AES_CCM_ICV8 (some 24),
          provide AEAD ENCR_AES_CCM_ICV8 (some 32)]
       else [])
     else []) ++
     (if c.aead_chacha20_poly1305 then
       [provide AEAD ENCR_CHACHA20_POLY1305 (some 32)]
     else []))
  else [])

/-- f_hash: the HASHER registration is unconditional; each provision is
gated by its hash family flag. -/
def f_hash (c : Config) : List PluginFeature :=
  register HASHER botan_hasher_create none ::
  ((if c.md5 then [provide HASHER HASH_MD5 none] else []) ++
   (if c.sha1 then [provide HASHER HASH_SHA1 none] else []) ++
   (if c.sha2_32 then
     [provide HASHER HASH_SHA224 none,
      provide HASHER HASH_SHA256 none]
   else []) ++
   (if c.sha2_64 then
     [provide HASHER HASH_SHA384 none,
      provide HASHER HASH_SHA512 none]
   else []) ++
   (if c.sha3 then
     [provide HASHER HASH_SHA3_224 none,
      provide HASHER HASH_SHA3_256 none,
      provide HASHER HASH_SHA3_384 none,
      provide HASHER HASH_SHA3_512 none]
   else []))

/-- f_prf: HMAC PRFs, gated by BOTAN_HAS_HMAC with nested hash gates. -/
def f_prf (c : Config) : List PluginFeature :=
  if c.hmac then
    register PRF botan_hmac_prf_create none ::
    ((if c.sha1 then [provide PRF PRF_HMAC_SHA1 none] else []) ++
     (if c.sha2_32 then [provide PRF PRF_HMAC_SHA2_256 none] else []) ++
     (if c.sha2_64 then
       [provide PRF PRF_HMAC_SHA2_384 none,
        provide PRF PRF_HMAC_SHA2_512 none]
     else []))
  else []

/-- f_hmac: HMAC signers, gated by BOTAN_HAS_HMAC with nested hash gates. -/
def f_hmac (c : Config) : List PluginFeature :=
  if c.hmac then
    register SIGNER botan_hmac_signer_create none ::
    ((if c.sha1 then
       [provide SIGNER AUTH_HMAC_SHA1_96 none,
        provide SIGNER AUTH_HMAC_SHA1_128 none,
        provide SIGNER AUTH_HMAC_SHA1_160 none]
     else []) ++
     (if c.sha2_32 then
       [provide SIGNER AUTH_HMAC_SHA2_256_128 none,
        provide SIGNER AUTH_HMAC_SHA2_256_256 none]
     else []) ++
     (if c.sha2_64 then
       [provide SIGNER AUTH_HMAC_SHA2_384_192 none,
        provide SIGNER AUTH_HMAC_SHA2_384_384 none,
        provide SIGNER AUTH_HMAC_SHA2_512_256 none,
        provide SIGNER AUTH_HMAC_SHA2_512_512 none]
     else []))
  else []

/-- f_pubkey: the generic public key loader group, gated by
RSA or ECDSA or ED25519 with nested per-key gates. -/
def f_pubkey (c : Config) : List PluginFeature :=
  if c.rsa || c.ecdsa || c.ed25519 then
    [register PUBKEY botan_public_key_load (some true),
     provide PUBKEY KEY_ANY none] ++
    (if c.rsa then [provide PUBKEY KEY_RSA none] else []) ++
    (if c.ecdsa then [provide PUBKEY KEY_ECDSA none] else []) ++
    (if c.ed25519 then [provide PUBKEY KEY_ED25519 none] else [])
  else []

/-- f_privkey: the generic private key loader group. -/
def f_privkey (c : Config) : List PluginFeature :=
  if c.rsa || c.ecdsa || c.ed25519 then
    [register PRIVKEY botan_private_key_load (some true),
     provide PRIVKEY KEY_ANY none] ++
    (if c.rsa then [provide PRIVKEY KEY_RSA none] else []) ++
    (if c.ecdsa then [provide PRIVKEY KEY_ECDSA none] else []) ++
    (if c.ed25519 then [provide PRIVKEY KEY_ED25519 none] else [])
  else []

/-- f_rsa: RSA key loading/generation and RSA signature/encryption
schemes, with the nested EMSA/EME gates of the source.  The SHA-1 PKCS#1
provisions are literally duplicated as in the source. -/
def f_rsa (c : Config) : List PluginFeature :=
  if c.rsa then
    [register PUBKEY botan_rsa_public_key_load (some true),
     provide PUBKEY KEY_RSA none,
     register PRIVKEY botan_rsa_private_key_load (some true),
     provide PRIVKEY KEY_RSA none,
     provide PRIVKEY KEY_ANY none,
     register PRIVKEY_GEN botan_rsa_private_key_gen (some false),
     provide PRIVKEY_GEN KEY_RSA none] ++
    (if c.emsa_pkcs1 then
      [provide PRIVKEY_SIGN SIGN_RSA_EMSA_PKCS1_NULL none,
       provide PUBKEY_VERIFY SIGN_RSA_EMSA_PKCS1_NULL none] ++
      (if c.sha1 then
        [provide PRIVKEY_SIGN SIGN_RSA_EMSA_PKCS1_SHA1 none,
         provide PRIVKEY_SIGN SIGN_RSA_EMSA_PKCS1_SHA1 none,
         provide PUBKEY_VERIFY SIGN_RSA_EMSA_PKCS1_SHA1 none,
         provide PUBKEY_VERIFY SIGN_RSA_EMSA_PKCS1_SHA1 none]
      else []) ++
      (if c.sha2_32 then
        [provide PRIVKEY_SIGN SIGN_RSA_EMSA_PKCS1_SHA2_224 none,
         provide PRIVKEY_SIGN SIGN_RSA_EMSA_PKCS1_SHA2_256 none,
         provide PUBKEY_VERIFY SIGN_RSA_EMSA_PKCS1_SHA2_224 none,
         provide PUBKEY_VERIFY SIGN_RSA_EMSA_PKCS1_SHA2_256 none]
      else []) ++
      (if c.sha2_64 then
        [provide PRIVKEY_SIGN SIGN_RSA_EMSA_PKCS1_SHA2_384 none,
         provide PRIVKEY_SIGN SIGN_RSA_EMSA_PKCS1_SHA2_512 none,
         provide PUBKEY_VERIFY SIGN_RSA_EMSA_PKCS1_SHA2_384 none,
         provide PUBKEY_VERIFY SIGN_RSA_EMSA_PKCS1_SHA2_512 none]
      else []) ++
      (if c.sha3 then
        [provide PRIVKEY_SIGN SIGN_RSA_EMSA_PKCS1_SHA3_224 none,
         provide PRIVKEY_SIGN SIGN_RSA_EMSA_PKCS1_SHA3_256 none,
         provide PRIVKEY_SIGN SIGN_RSA_EMSA_PKCS1_SHA3_384 none,
         provide PRIVKEY_SIGN SIGN_RSA_EMSA_PKCS1_SHA3_512 none,
         provide PUBKEY_VERIFY SIGN_RSA_EMSA_PKCS1_SHA3_224 none,
         provide PUBKEY_VERIFY SIGN_RSA_EMSA_PKCS1_SHA3_256 none,
         provide PUBKEY_VERIFY SIGN_RSA_EMSA_PKCS1_SHA3_384 none,
         provide PUBKEY_VERIFY SIGN_RSA_EMSA_PKCS1_SHA3_512 none]
      else [])
    else []) ++
    (if c.emsa_pssr then
      [provide PRIVKEY_SIGN SIGN_RSA_EMSA_PSS none,
       provide PUBKEY_VERIFY SIGN_RSA_EMSA_PSS none]
    else []) ++
    [provide PRIVKEY_DECRYPT ENCRYPT_RSA_PKCS1 none,
     provide PUBKEY_ENCRYPT ENCRYPT_RSA_PKCS1 none] ++
    (if c.eme_oaep then
      (if c.sha2_32 then
        [provide PUBKEY_ENCRYPT ENCRYPT_RSA_OAEP_SHA224 none,
         provide PUBKEY_ENCRYPT ENCRYPT_RSA_OAEP_SHA256 none]
      else []) ++
      (if c.sha2_64 then
        [provide PUBKEY_ENCRYPT ENCRYPT_RSA_OAEP_SHA384 none,
         provide PUBKEY_ENCRYPT ENCRYPT_RSA_OAEP_SHA512 none]
      else [])
    else [])
  else []

/-- f_ecdsa: ECDSA key loading/generation and signature schemes.  Note the
source guards the SHA-384/512 block with ifndef BOTAN_HAS_SHA2_64, so this
sub-range is present exactly when the SHA-2-64 flag is absent. -/
def f_ecdsa (c : Config) : List PluginFeature :=
  if c.ecdsa then
    [register PRIVKEY botan_ec_private_key_load (some true),
     provide PRIVKEY KEY_ECDSA none,
     provide PRIVKEY KEY_ANY none,
     register PRIVKEY_GEN botan_ec_private_key_gen (some false),
     provide PRIVKEY_GEN KEY_ECDSA none] ++
    (if c.emsa_raw then
      [provide PRIVKEY_SIGN SIGN_ECDSA_WITH_NULL none,
       provide PUBKEY_VERIFY SIGN_ECDSA_WITH_NULL none]
    else []) ++
    (if c.emsa1 then
      (if c.sha1 then
        [provide PRIVKEY_SIGN SIGN_ECDSA_WITH_SHA1_DER none,
         provide PUBKEY_VERIFY SIGN_ECDSA_WITH_SHA1_DER none]
      else []) ++
      (if c.sha2_32 then
        [provide PRIVKEY_SIGN SIGN_ECDSA_WITH_SHA256_DER none,
         provide PUBKEY_VERIFY SIGN_ECDSA_WITH_SHA256_DER none,
         provide PRIVKEY_SIGN SIGN_ECDSA_256 none,
         provide PUBKEY_VERIFY SIGN_ECDSA_256 none]
      else []) ++
      (if !c.sha2_64 then
        [provide PRIVKEY_SIGN SIGN_ECDSA_WITH_SHA384_DER none,
         provide PRIVKEY_SIGN SIGN_ECDSA_WITH_SHA512_DER none,
         provide PUBKEY_VERIFY SIGN_ECDSA_WITH_SHA384_DER none,
         provide PUBKEY_VERIFY SIGN_ECDSA_WITH_SHA512_DER none,
         provide PRIVKEY_SIGN SIGN_ECDSA_384 none,
         provide PRIVKEY_SIGN SIGN_ECDSA_521 none,
         provide PUBKEY_VERIFY SIGN_ECDSA_384 none,
         provide PUBKEY_VERIFY SIGN_ECDSA_521 none]
      else [])
    else [])
  else []

/-- f_ed25519: EdDSA key loading/generation, signature, and the pro forma
identity hasher registration (never instantiated), gated by
BOTAN_HAS_ED25519. -/
def f_ed25519 (c : Config) : List PluginFeature :=
  if c.ed25519 then
    [register PUBKEY botan_ed_public_key_load (some true),
     provide PUBKEY KEY_ED25519 none,
     register PRIVKEY botan_ed_private_key_load (some true),
     provide PRIVKEY KEY_ED25519 none,
     register PRIVKEY_GEN botan_ed_private_key_gen (some false),
     provide PRIVKEY_GEN KEY_ED25519 none,
     provide PRIVKEY_SIGN SIGN_ED25519 none,
     provide PUBKEY_VERIFY SIGN_ED25519 none,
     register HASHER return_null none,
     provide HASHER HASH_IDENTITY none]
  else []

/-- f_rng: random number generators, gated by BOTAN_HAS_SYSTEM_RNG and
BOTAN_HAS_HMAC_DRBG (nested). -/
def f_rng (c : Config) : List PluginFeature :=
  if c.system_rng then
    (if c.hmac_drbg then
      [register RNG botan_rng_create none,
       provide RNG RNG_WEAK none,
       provide RNG RNG_STRONG none,
       provide RNG RNG_TRUE none]
    else [])
  else []

/-- Modelled from the spec: plugin_features_add (plugin framework, not
under src/) appends the given group entries to the filled prefix of the
output storage and bumps the running count by the number of appended
entries. -/
def plugin_features_add (f : List PluginFeature) (to_add : List PluginFeature)
    (count : Nat) : List PluginFeature × Nat :=
  (f ++ to_add, count + to_add.length)

/-- The capacity of the static output array f: the sum of the compiled
sizes (countof) of all twelve declared group arrays, f_pubkey included. -/
def capacity (c : Config) : Nat :=
  (f_dh c).length + (f_ecdh c).length + (f_crypt c).length +
  (f_hash c).length + (f_prf c).length +
  (f_hmac c).length + (f_pubkey c).length +
  (f_privkey c).length + (f_rsa c).length +
  (f_ecdsa c).length + (f_ed25519 c).length +
  (f_rng c).length

/-- The build step of get_features: the sequence of plugin_features_add
calls of the source (f_dh, f_ecdh, f_crypt, f_hash, f_prf, f_hmac,
f_privkey, f_rsa, f_ecdsa, f_ed25519, then conditionally f_rng), starting
from the empty prefix and count 0.  Note the source appends f_privkey right
after f_hmac and never appends f_pubkey. -/
def buildRegistry (c : Config) (use_rng : Bool) : List PluginFeature × Nat :=
  let s1 := plugin_features_add [] (f_dh c) 0
  let s2 := plugin_features_add s1.1 (f_ecdh c) s1.2
  let s3 := plugin_features_add s2.1 (f_crypt c) s2.2
  let s4 := plugin_features_add s3.1 (f_hash c) s3.2
  let s5 := plugin_features_add s4.1 (f_prf c) s4.2
  let s6 := plugin_features_add s5.1 (f_hmac c) s5.2
  let s7 := plugin_features_add s6.1 (f_privkey c) s6.2
  let s8 := plugin_features_add s7.1 (f_rsa c) s7.2
  let s9 := plugin_features_add s8.1 (f_ecdsa c) s8.2
  let s10 := plugin_features_add s9.1 (f_ed25519 c) s9.2
  if use_rng then plugin_features_add s10.1 (f_rng c) s10.2 else s10

/-- The merged catalog (filled prefix of the storage) for a build
configuration and a value of the runtime randomness flag. -/
def catalog (c : Config) (use_rng : Bool) : List PluginFeature :=
  (buildRegistry c use_rng).1

/-- The static-local cache of get_features: the filled prefix of the
static array f and the static count. -/
structure Cache where
  f : List PluginFeature
  count : Nat
deriving DecidableEq

/-- The cache at process start: the static array holds no appended
entries yet and count is zero. -/
def initCache : Cache :=
  { f := [], count := 0 }

/-- What one call of get_features returns: the features array, the count,
and how many times the call read the runtime configuration value
(lib->settings->get_bool, modelled from the spec as a boolean oracle with
default true, since the settings component is not under src/). -/
structure FeaturesResult where
  features : List PluginFeature
  count : Nat
  settingsReads : Nat
deriving DecidableEq

/-- get_features: if the static count is still zero, run the append
sequence (reading the runtime randomness flag once) and publish the
result in the cache; otherwise return the cached array and count without
rebuilding or reading the configuration. -/
def get_features (c : Config) (use_rng : Bool) (s : Cache) :
    Cache × FeaturesResult :=
  if s.count = 0 then
    let r := buildRegistry c use_rng
    ({ f := r.1, count := r.2 }, { features := r.1, count := r.2, settingsReads := 1 })
  else
    (s, { features := s.f, count := s.count, settingsReads := 0 })

/-- n successive calls of get_features within one process lifetime,
starting from the initial cache; returns the final cache and the list of
per-call results. -/
def runCalls (c : Config) (use_rng : Bool) : Nat → Cache × List FeaturesResult
  | 0 => (initCache, [])
  | n + 1 =>
    let p := runCalls c use_rng n
    let q := get_features c use_rng p.1
    (q.1, p.2 ++ [q.2])

/-- The groups whose surviving entries get_features actually appends, in
append order (f_pubkey is declared in the source but never appended). -/
def groupsOf (c : Config) (use_rng : Bool) : List (List PluginFeature) :=
  [f_dh c, f_ecdh c, f_crypt c, f_hash c, f_prf c, f_hmac c, f_privkey c,
   f_rsa c, f_ecdsa c, f_ed25519 c] ++ (if use_rng then [f_rng c] else [])

/-- The build configuration with every backend capability flag true. -/
def allOn : Config :=
  { diffie_hellman := true, ecdh := true, x25519 := true, aes := true,
    mode_cbc := true, aead_gcm := true, aead_ccm := true,
    aead_chacha20_poly1305 := true, md5 := true, sha1 := true,
    sha2_32 := true, sha2_64 := true, sha3 := true, hmac := true,
    rsa := true, ecdsa := true, ed25519 := true, emsa_pkcs1 := true,
    emsa_pssr := true, eme_oaep := true, emsa_raw := true, emsa1 := true,
    system_rng := true, hmac_drbg := true }

/-- The build configuration with every backend capability flag false. -/
def allOff : Config :=
  { diffie_hellman := false, ecdh := false, x25519 := false, aes := false,
    mode_cbc := false, aead_gcm := false, aead_ccm := false,
    aead_chacha20_poly1305 := false, md5 := false, sha1 := false,
    sha2_32 := false, sha2_64 := false, sha3 := false, hmac := false,
    rsa := false, ecdsa := false, ed25519 := false, emsa_pkcs1 := false,
    emsa_pssr := false, eme_oaep := false, emsa_raw := false, emsa1 := false,
    system_rng := false, hmac_drbg := false }

/-- The all-flags-on configuration with only the SHA-2-64 family flag
disabled. -/
def allOnNoSha2_64 : Config :=
  { allOn with sha2_64 := false }

/-- Number of Registration entries of the given category in a list. -/
def regCount (t : FeatureType) (l : List PluginFeature) : Nat :=
  (l.filter fun e =>
    match e with
    | .register t2 _ _ => t2 = t
    | .provide _ _ _ => false).length

/-- Scan of one group checking that every Provision is preceded by exactly
one Registration of the same category (the literal reading of the
spec sentence); the first argument accumulates the already-scanned
prefix. -/
def provisionsMatchedFrom : List PluginFeature → List PluginFeature → Bool
  | _, [] => true
  | pre, .register t f b :: rest =>
    provisionsMatchedFrom (pre ++ [.register t f b]) rest
  | pre, .provide t a s :: rest =>
    (regCount t pre == 1) && provisionsMatchedFrom (pre ++ [.provide t a s]) rest

/-- Every Provision of the list has exactly one earlier Registration of
the same category. -/
def provisionsMatched (l : List PluginFeature) : Bool :=
  provisionsMatchedFrom [] l

/-- Scan of one group tracking whether a Registration is currently open;
true when no Provision occurs before the first Registration. -/
def noOrphanGo : Bool → List PluginFeature → Bool
  | _, [] => true
  | _, .register _ _ _ :: rest => noOrphanGo true rest
  | opened, .provide _ _ _ :: rest => opened && noOrphanGo opened rest

/-- No Provision of the list occurs before the first Registration. -/
def noOrphan (l : List PluginFeature) : Bool :=
  noOrphanGo false l

/-- The duplicated SHA-1 PKCS#1 signing provision of f_rsa. -/
def dupSign : PluginFeature :=
  provide PRIVKEY_SIGN SIGN_RSA_EMSA_PKCS1_SHA1 none

/-- The duplicated SHA-1 PKCS#1 verification provision of f_rsa. -/
def dupVerify : PluginFeature :=
  provide PUBKEY_VERIFY SIGN_RSA_EMSA_PKCS1_SHA1 none

/-- The unconditional hash Registration heading f_hash. -/
def hashReg : PluginFeature :=
  register HASHER botan_hasher_create none

theorem catalog_eq (c : Config) (u : Bool) :
    catalog c u =
      f_dh c ++ (f_ecdh c ++ (f_crypt c ++ (f_hash c ++ (f_prf c ++
      (f_hmac c ++ (f_privkey c ++ (f_rsa c ++ (f_ecdsa c ++
      (f_ed25519 c ++ (if u then f_rng c else [])))))))))) := by
  cases u <;>
    simp [catalog, buildRegistry, plugin_features_add, List.append_assoc]

theorem buildRegistry_snd (c : Config) (u : Bool) :
    (buildRegistry c u).2 = (catalog c u).length := by
  cases u <;>
    simp [catalog, buildRegistry, plugin_features_add, List.length_append] <;>
    omega

theorem f_hash_length_pos (c : Config) : 0 < (f_hash c).length := by
  simp [f_hash]

theorem catalog_length_pos (c : Config) (u : Bool) :
    0 < (catalog c u).length := by
  have h := f_hash_length_pos c
  rw [catalog_eq]
  simp [List.length_append]
  omega

theorem catalog_length_le_capacity (c : Config) (u : Bool) :
    (catalog c u).length ≤ capacity c := by
  cases u <;>
    simp [catalog, buildRegistry, plugin_features_add, capacity,
      List.length_append] <;>
    omega

theorem get_features_first (c : Config) (u : Bool) :
    get_features c u initCache =
      ({ f := catalog c u, count := (catalog c u).length },
       { features := catalog c u, count := (catalog c u).length,
         settingsReads := 1 }) := by
  simp [get_features, initCache, catalog, buildRegistry_snd]

theorem get_features_cached (c : Config) (u : Bool) (s : Cache)
    (h : s.count ≠ 0) :
    get_features c u s =
      (s, { features := s.f, count := s.count, settingsReads := 0 }) := by
  simp [get_features, h]

theorem f_dh_facts (c : Config) :
    ((f_dh c).all fun e => e.ftype != FeatureType.RNG) = true ∧
    noOrphan (f_dh c) = true ∧
    (f_dh c).count dupSign = 0 ∧ (f_dh c).count dupVerify = 0 := by
  obtain ⟨a1,a2,a3,a4,a5,a6,a7,a8,a9,a10,a11,a12,a13,a14,a15,a16,a17,a18,a19,a20,a21,a22,a23,a24⟩ := c
  cases a1 <;> exact ⟨rfl, rfl, rfl, rfl⟩

theorem f_ecdh_facts (c : Config) :
    ((f_ecdh c).all fun e => e.ftype != FeatureType.RNG) = true ∧
    noOrphan (f_ecdh c) = true ∧
    (f_ecdh c).count dupSign = 0 ∧ (f_ecdh c).count dupVerify = 0 := by
  obtain ⟨a1,a2,a3,a4,a5,a6,a7,a8,a9,a10,a11,a12,a13,a14,a15,a16,a17,a18,a19,a20,a21,a22,a23,a24⟩ := c
  cases a2 <;> cases a3 <;> exact ⟨rfl, rfl, rfl, rfl⟩

theorem f_crypt_facts (c : Config) :
    ((f_crypt c).all fun e => e.ftype != FeatureType.RNG) = true ∧
    noOrphan (f_crypt c) = true ∧
    (f_crypt c).count dupSign = 0 ∧ (f_crypt c).count dupVerify = 0 := by
  obtain ⟨a1,a2,a3,a4,a5,a6,a7,a8,a9,a10,a11,a12,a13,a14,a15,a16,a17,a18,a19,a20,a21,a22,a23,a24⟩ := c
  cases a4 <;> cases a5 <;> cases a6 <;> cases a7 <;> cases a8 <;>
    exact ⟨rfl, rfl, rfl, rfl⟩

theorem f_hash_facts (c : Config) :
    ((f_hash c).all fun e => e.ftype != FeatureType.RNG) = true ∧
    noOrphan (f_hash c) = true ∧
    (f_hash c).count dupSign = 0 ∧ (f_hash c).count dupVerify = 0 := by
  obtain ⟨a1,a2,a3,a4,a5,a6,a7,a8,a9,a10,a11,a12,a13,a14,a15,a16,a17,a18,a19,a20,a21,a22,a23,a24⟩ := c
  cases a9 <;> cases a10 <;> cases a11 <;> cases a12 <;> cases a13 <;>
    exact ⟨rfl, rfl, rfl, rfl⟩

theorem f_prf_facts (c : Config) :
    ((f_prf c).all fun e => e.ftype != FeatureType.RNG) = true ∧
    noOrphan (f_prf c) = true ∧
    (f_prf c).count dupSign = 0 ∧ (f_prf c).count dupVerify = 0 := by
  obtain ⟨a1,a2,a3,a4,a5,a6,a7,a8,a9,a10,a11,a12,a13,a14,a15,a16,a17,a18,a19,a20,a21,a22,a23,a24⟩ := c
  cases a14 <;> cases a10 <;> cases a11 <;> cases a12 <;>
    exact ⟨rfl, rfl, rfl, rfl⟩

theorem f_hmac_facts (c : Config) :
    ((f_hmac c).all fun e => e.ftype != FeatureType.RNG) = true ∧
    noOrphan (f_hmac c) = true ∧
    (f_hmac c).count dupSign = 0 ∧ (f_hmac c).count dupVerify = 0 := by
  obtain ⟨a1,a2,a3,a4,a5,a6,a7,a8,a9,a10,a11,a12,a13,a14,a15,a16,a17,a18,a19,a20,a21,a22,a23,a24⟩ := c
  cases a14 <;> cases a10 <;> cases a11 <;> cases a12 <;>
    exact ⟨rfl, rfl, rfl, rfl⟩

theorem f_pubkey_facts (c : Config) :
    ((f_pubkey c).all fun e => e.ftype != FeatureType.RNG) = true ∧
    noOrphan (f_pubkey c) = true ∧
    (f_pubkey c).count dupSign = 0 ∧ (f_pubkey c).count dupVerify = 0 := by
  obtain ⟨a1,a2,a3,a4,a5,a6,a7,a8,a9,a10,a11,a12,a13,a14,a15,a16,a17,a18,a19,a20,a21,a22,a23,a24⟩ := c
  cases a15 <;> cases a16 <;> cases a17 <;> exact ⟨rfl, rfl, rfl, rfl⟩

theorem f_privkey_facts (c : Config) :
    ((f_privkey c).all fun e => e.ftype != FeatureType.RNG) = true ∧
    noOrphan (f_privkey c) = true ∧
    (f_privkey c).count dupSign = 0 ∧ (f_privkey c).count dupVerify = 0 := by
  obtain ⟨a1,a2,a3,a4,a5,a6,a7,a8,a9,a10,a11,a12,a13,a14,a15,a16,a17,a18,a19,a20,a21,a22,a23,a24⟩ := c
  cases a15 <;> cases a16 <;> cases a17 <;> exact ⟨rfl, rfl, rfl, rfl⟩

theorem f_rsa_facts (c : Config) :
    ((f_rsa c).all fun e => e.ftype != FeatureType.RNG) = true ∧
    noOrphan (f_rsa c) = true := by
  obtain ⟨a1,a2,a3,a4,a5,a6,a7,a8,a9,a10,a11,a12,a13,a14,a15,a16,a17,a18,a19,a20,a21,a22,a23,a24⟩ := c
  cases a15 <;> cases a18 <;> cases a10 <;> cases a11 <;> cases a12 <;>
    cases a13 <;> cases a19 <;> cases a20 <;> exact ⟨rfl, rfl⟩

theorem f_rsa_counts (c : Config) (h1 : c.rsa = true) (h2 : c.sha1 = true)
    (h3 : c.emsa_pkcs1 = true) :
    (f_rsa c).count dupSign = 2 ∧ (f_rsa c).count dupVerify = 2 := by
  obtain ⟨a1,a2,a3,a4,a5,a6,a7,a8,a9,a10,a11,a12,a13,a14,a15,a16,a17,a18,a19,a20,a21,a22,a23,a24⟩ := c
  simp only at h1 h2 h3
  subst h1 h2 h3
  cases a11 <;> cases a12 <;> cases a13 <;> cases a19 <;> cases a20 <;>
    exact ⟨rfl, rfl⟩

theorem f_ecdsa_facts (c : Config) :
    ((f_ecdsa c).all fun e => e.ftype != FeatureType.RNG) = true ∧
    noOrphan (f_ecdsa c) = true ∧
    (f_ecdsa c).count dupSign = 0 ∧ (f_ecdsa c).count dupVerify = 0 := by
  obtain ⟨a1,a2,a3,a4,a5,a6,a7,a8,a9,a10,a11,a12,a13,a14,a15,a16,a17,a18,a19,a20,a21,a22,a23,a24⟩ := c
  cases a16 <;> cases a21 <;> cases a22 <;> cases a10 <;> cases a11 <;>
    cases a12 <;> exact ⟨rfl, rfl, rfl, rfl⟩

theorem f_ed25519_facts (c : Config) :
    ((f_ed25519 c).all fun e => e.ftype != FeatureType.RNG) = true ∧
    noOrphan (f_ed25519 c) = true ∧
    (f_ed25519 c).count dupSign = 0 ∧ (f_ed25519 c).count dupVerify = 0 := by
  obtain ⟨a1,a2,a3,a4,a5,a6,a7,a8,a9,a10,a11,a12,a13,a14,a15,a16,a17,a18,a19,a20,a21,a22,a23,a24⟩ := c
  cases a17 <;> exact ⟨rfl, rfl, rfl, rfl⟩

theorem f_rng_facts (c : Config) :
    ((f_rng c).all fun e => e.ftype == FeatureType.RNG) = true ∧
    noOrphan (f_rng c) = true ∧
    (f_rng c).count dupSign = 0 ∧ (f_rng c).count dupVerify = 0 := by
  obtain ⟨a1,a2,a3,a4,a5,a6,a7,a8,a9,a10,a11,a12,a13,a14,a15,a16,a17,a18,a19,a20,a21,a22,a23,a24⟩ := c
  cases a23 <;> cases a24 <;> exact ⟨rfl, rfl, rfl, rfl⟩

theorem runCalls_spec (c : Config) (u : Bool) :
    ∀ n, 1 ≤ n →
    (runCalls c u n).1 =
      { f := catalog c u, count := (catalog c u).length } ∧
    (runCalls c u n).2.map (fun r => (r.features, r.count)) =
      List.replicate n (catalog c u, (catalog c u).length) ∧
    ((runCalls c u n).2.map FeaturesResult.settingsReads).sum = 1 := by
  intro n hn
  induction n with
  | zero => omega
  | succ m ih =>
    rcases Nat.eq_zero_or_pos m with hm | hm
    · subst hm
      simp [runCalls, get_features_first]
    · obtain ⟨h1, h2, h3⟩ := ih hm
      have hcnt : (catalog c u).length ≠ 0 :=
        Nat.pos_iff_ne_zero.mp (catalog_length_pos c u)
      have hcache :
          get_features c u ((runCalls c u m).1) =
            ((runCalls c u m).1,
             { features := catalog c u, count := (catalog c u).length,
               settingsReads := 0 }) := by
        rw [h1]
        exact get_features_cached c u _ hcnt
      constructor
      · show (get_features c u ((runCalls c u m).1)).1 = _
        rw [hcache, h1]
      constructor
      · show ((runCalls c u m).2 ++
          [(get_features c u ((runCalls c u m).1)).2]).map
            (fun r => (r.features, r.count)) = _
        rw [hcache, List.map_append, h2, List.replicate_succ']
        simp
      · show (((runCalls c u m).2 ++
          [(get_features c u ((runCalls c u m).1)).2]).map
            FeaturesResult.settingsReads).sum = 1
        rw [hcache, List.map_append, List.sum_append, h3]
        simp

/-- C1: the claim states that the Registry returned by get_features is the
concatenation of the surviving entries of every included group, the
generic public-key loader group included.  The code never appends
f_pubkey (its plugin_features_add call is missing although the storage is
sized for the group), so with every backend flag on the group is nonempty
and contains the (PUBKEY, KEY_ANY) provision, yet that provision is
absent from the returned catalog.  This theorem evaluates the code at the
failing input. -/
theorem C1_pubkey_group_never_appended :
    f_pubkey allOn ≠ [] ∧
    (provide PUBKEY KEY_ANY none) ∈ f_pubkey allOn ∧
    (provide PUBKEY KEY_ANY none) ∉ catalog allOn true := by
  decide

/-- C2: across any sequence of at least one call of get_features within
one process lifetime, every call returns the identical Registry and the
identical count (those of the first build), and the runtime configuration
value is read exactly once in total. -/
theorem C2_build_once (c : Config) (u : Bool) (n : Nat) (hn : 1 ≤ n) :
    (runCalls c u n).2.map (fun r => (r.features, r.count)) =
      List.replicate n (catalog c u, (catalog c u).length) ∧
    ((runCalls c u n).2.map FeaturesResult.settingsReads).sum = 1 :=
  ⟨(runCalls_spec c u n hn).2.1, (runCalls_spec c u n hn).2.2⟩

/-- Witness for C2 at a concrete input: two calls on the all-flags-off
build return the identical catalog and count and read the configuration
once. -/
theorem C2_build_once_witness :
    1 ≤ 2 ∧
    ((runCalls allOff true 2).2.map (fun r => (r.features, r.count)) =
      List.replicate 2 (catalog allOff true, (catalog allOff true).length) ∧
     ((runCalls allOff true 2).2.map FeaturesResult.settingsReads).sum = 1) :=
  ⟨by decide, C2_build_once allOff true 2 (by decide)⟩

/-- C3: for every build, with the runtime randomness flag false no entry
of category RNG appears anywhere in the catalog; with the flag true the
catalog is the flag-false catalog followed by exactly the
statically-enabled randomness entries, all of category RNG. -/
theorem C3_rng_flag_gated_and_last (c : Config) :
    ((catalog c false).all fun e => e.ftype != FeatureType.RNG) = true ∧
    catalog c true = catalog c false ++ f_rng c ∧
    ((f_rng c).all fun e => e.ftype == FeatureType.RNG) = true := by
  refine ⟨?_, ?_, (f_rng_facts c).1⟩
  · rw [catalog_eq]
    simp only [Bool.false_eq_true, if_false, List.append_nil,
      List.all_append, Bool.and_eq_true]
    exact ⟨(f_dh_facts c).1, (f_ecdh_facts c).1, (f_crypt_facts c).1,
      (f_hash_facts c).1, (f_prf_facts c).1, (f_hmac_facts c).1,
      (f_privkey_facts c).1, (f_rsa_facts c).1, (f_ecdsa_facts c).1,
      (f_ed25519_facts c).1⟩
  · rw [catalog_eq, catalog_eq]
    simp [List.append_assoc]

/-- C4: the claim states that disabling a backend capability flag removes
exactly the entries gated by that flag.  The SHA-384/512 ECDSA signature
block of f_ecdsa is guarded by ifndef BOTAN_HAS_SHA2_64, so disabling the
SHA-2-64 flag ADDS those eight entries to the catalog instead of only
removing SHA-2-64-gated entries.  This theorem evaluates the code at the
failing input. -/
theorem C4_sha2_64_gate_inverted :
    (provide PRIVKEY_SIGN SIGN_ECDSA_WITH_SHA384_DER none) ∈
      catalog allOnNoSha2_64 true ∧
    (provide PRIVKEY_SIGN SIGN_ECDSA_WITH_SHA384_DER none) ∉
      catalog allOn true := by
  decide

/-- C5 counterexample: with every backend flag on, the catalog has
Provisions (the PRIVKEY_SIGN and PUBKEY_VERIFY scheme provisions of
f_rsa, f_ecdsa and f_ed25519) with no preceding Registration of matching
category in their group, so the literal claim is false. -/
theorem C5_counterexample :
    ((groupsOf allOn true).all provisionsMatched) = false := by
  decide

/-- C5 amended: the catalog is the concatenation of the appended groups,
and within every group no Provision occurs before the first Registration,
so a scan tracking the current registration per group never finds a
Provision with no open Registration (the most recent Registration's
category may differ from the Provision's). -/
theorem C5_no_orphaned_provision (c : Config) (u : Bool) :
    catalog c u = (groupsOf c u).flatten ∧
    ((groupsOf c u).all noOrphan) = true := by
  constructor
  · rw [catalog_eq]
    cases u <;> simp [groupsOf]
  · cases u with
    | false =>
      simp only [groupsOf, Bool.false_eq_true, if_false, List.append_nil,
        List.all_cons, List.all_nil, Bool.and_eq_true]
      exact ⟨(f_dh_facts c).2.1, (f_ecdh_facts c).2.1, (f_crypt_facts c).2.1,
        (f_hash_facts c).2.1, (f_prf_facts c).2.1, (f_hmac_facts c).2.1,
        (f_privkey_facts c).2.1, (f_rsa_facts c).2,
        (f_ecdsa_facts c).2.1, (f_ed25519_facts c).2.1, trivial⟩
    | true =>
      simp only [groupsOf, if_pos, List.all_append, List.all_cons,
        List.all_nil, Bool.and_eq_true]
      exact ⟨⟨(f_dh_facts c).2.1, (f_ecdh_facts c).2.1, (f_crypt_facts c).2.1,
        (f_hash_facts c).2.1, (f_prf_facts c).2.1, (f_hmac_facts c).2.1,
        (f_privkey_facts c).2.1, (f_rsa_facts c).2,
        (f_ecdsa_facts c).2.1, (f_ed25519_facts c).2.1, trivial⟩,
        (f_rng_facts c).2.1, trivial⟩

/-- C6 counterexample: with every backend capability flag false,
get_features does not return count 0 with an empty sequence: the
unconditional hash Registration is still appended. -/
theorem C6_counterexample :
    ¬ ((get_features allOff true initCache).2.count = 0 ∧
       (get_features allOff true initCache).2.features = []) := by
  decide

/-- C6 amended: get_features is total (it is a function of the build
configuration, the flag and the cache), and in the build where all
backend capability flags are false it returns count 1 together with the
valid sequence holding only the unconditional hash Registration. -/
theorem C6_all_flags_off (u : Bool) :
    (get_features allOff u initCache).2.features = [hashReg] ∧
    (get_features allOff u initCache).2.count = 1 := by
  cases u <;> exact ⟨rfl, rfl⟩

/-- C7: every result of any call sequence carries a count equal to the
number of entries actually appended (the length of the returned
sequence), equal to the built catalog's length (stable across calls), and
bounded by the capacity of the backing storage (the sum of the compiled
sizes of all declared group arrays). -/
theorem C7_count_invariant (c : Config) (u : Bool) (n : Nat)
    (r : FeaturesResult) (hr : r ∈ (runCalls c u n).2) :
    r.count = r.features.length ∧
    r.features = catalog c u ∧
    r.count = (catalog c u).length ∧
    r.count ≤ capacity c := by
  have hn : 1 ≤ n := by
    rcases Nat.eq_zero_or_pos n with h0 | h1
    · subst h0
      simp [runCalls] at hr
    · exact h1
  obtain ⟨-, h2, -⟩ := runCalls_spec c u n hn
  have hmem : (r.features, r.count) ∈
      List.replicate n (catalog c u, (catalog c u).length) := by
    rw [← h2]
    exact List.mem_map_of_mem _ hr
  have heq := List.eq_of_mem_replicate hmem
  have hf : r.features = catalog c u := congrArg Prod.fst heq
  have hc : r.count = (catalog c u).length := congrArg Prod.snd heq
  refine ⟨?_, hf, hc, ?_⟩
  · rw [hf, hc]
  · rw [hc]
    exact catalog_length_le_capacity c u

/-- Witness for C7 at a concrete input: the single call of the
all-flags-off build. -/
theorem C7_count_invariant_witness :
    ({ features := catalog allOff true, count := 1, settingsReads := 1 } :
        FeaturesResult) ∈ (runCalls allOff true 1).2 ∧
    (1 = (catalog allOff true).length ∧
     catalog allOff true = catalog allOff true ∧
     1 = (catalog allOff true).length ∧
     1 ≤ capacity allOff) :=
  ⟨by decide, C7_count_invariant allOff true 1
    { features := catalog allOff true, count := 1, settingsReads := 1 }
    (by decide)⟩

/-- C8: in every build with the Edwards-curve gate on, the catalog
contains the pro-forma HASHER Registration whose constructor reference is
the null-returning placeholder, immediately followed by its HASH_IDENTITY
Provision. -/
theorem C8_pro_forma_identity_hasher (c : Config) (u : Bool)
    (h : c.ed25519 = true) :
    ∃ pre post, catalog c u =
      pre ++ [register HASHER return_null none,
              provide HASHER HASH_IDENTITY none] ++ post := by
  refine ⟨f_dh c ++ f_ecdh c ++ f_crypt c ++ f_hash c ++ f_prf c ++
    f_hmac c ++ f_privkey c ++ f_rsa c ++ f_ecdsa c ++
    [register PUBKEY botan_ed_public_key_load (some true),
     provide PUBKEY KEY_ED25519 none,
     register PRIVKEY botan_ed_private_key_load (some true),
     provide PRIVKEY KEY_ED25519 none,
     register PRIVKEY_GEN botan_ed_private_key_gen (some false),
     provide PRIVKEY_GEN KEY_ED25519 none,
     provide PRIVKEY_SIGN SIGN_ED25519 none,
     provide PUBKEY_VERIFY SIGN_ED25519 none],
    (if u then f_rng c else []), ?_⟩
  rw [catalog_eq]
  simp [f_ed25519, h, List.append_assoc]

/-- Witness for C8 at a concrete input: the all-flags-on build. -/
theorem C8_pro_forma_identity_hasher_witness :
    allOn.ed25519 = true ∧
    ∃ pre post, catalog allOn true =
      pre ++ [register HASHER return_null none,
              provide HASHER HASH_IDENTITY none] ++ post :=
  ⟨rfl, C8_pro_forma_identity_hasher allOn true rfl⟩

/-- C9: in every build with the SHA-1, RSA and PKCS#1 gates on, the
SHA-1-based RSA signature provision occurs exactly twice for signing and
exactly twice for verification in the catalog: the literally duplicated
entries of f_rsa are preserved, not deduplicated. -/
theorem C9_sha1_rsa_duplicates (c : Config) (u : Bool) (h1 : c.rsa = true)
    (h2 : c.sha1 = true) (h3 : c.emsa_pkcs1 = true) :
    (catalog c u).count dupSign = 2 ∧ (catalog c u).count dupVerify = 2 := by
  obtain ⟨hs, hv⟩ := f_rsa_counts c h1 h2 h3
  obtain ⟨-, -, s1, v1⟩ := f_dh_facts c
  obtain ⟨-, -, s2, v2⟩ := f_ecdh_facts c
  obtain ⟨-, -, s3, v3⟩ := f_crypt_facts c
  obtain ⟨-, -, s4, v4⟩ := f_hash_facts c
  obtain ⟨-, -, s5, v5⟩ := f_prf_facts c
  obtain ⟨-, -, s6, v6⟩ := f_hmac_facts c
  obtain ⟨-, -, s7, v7⟩ := f_privkey_facts c
  obtain ⟨-, -, s8, v8⟩ := f_ecdsa_facts c
  obtain ⟨-, -, s9, v9⟩ := f_ed25519_facts c
  obtain ⟨-, -, s10, v10⟩ := f_rng_facts c
  rw [catalog_eq]
  cases u <;>
    simp [List.count_append, hs, hv, s1, v1, s2, v2, s3, v3, s4, v4,
      s5, v5, s6, v6, s7, v7, s8, v8, s9, v9, s10, v10]

/-- Witness for C9 at a concrete input: the all-flags-on build. -/
theorem C9_sha1_rsa_duplicates_witness :
    allOn.rsa = true ∧ allOn.sha1 = true ∧ allOn.emsa_pkcs1 = true ∧
    ((catalog allOn true).count dupSign = 2 ∧
     (catalog allOn true).count dupVerify = 2) :=
  ⟨rfl, rfl, rfl, C9_sha1_rsa_duplicates allOn true rfl rfl rfl⟩

/-- C10: in every build configuration and for both values of the runtime
randomness flag, the unconditional HASHER Registration of the hash group
is in the catalog, so the count returned by get_features is at least 1. -/
theorem C10_catalog_never_empty (c : Config) (u : Bool) :
    hashReg ∈ f_hash c ∧ hashReg ∈ catalog c u ∧
    1 ≤ (get_features c u initCache).2.count := by
  have hm : hashReg ∈ f_hash c := by simp [f_hash, hashReg]
  refine ⟨hm, ?_, ?_⟩
  · rw [catalog_eq]
    simp [hm]
  · rw [get_features_first]
    exact catalog_length_pos c u

end BotanPlugin
